import Mathlib

/-!
Shallow embedding of the hh-2050/videowall sources (src/js/TagManager.js,
src/js/VideoGrid.js, src/js/Navbar.js) for checking the repository
specification. DOM cells are modelled as records of the attributes and
style properties the code reads and writes; the tag registry (a JS Map)
is modelled as an insertion-ordered association list; randomness and
timers are passed explicitly.
-/

/-- A video cell (one `.video-cell` DOM element) as the fields the code
touches: the inner video element's `src`, `currentTime` and `paused`
properties, the `empty` class, the `data-tag` attribute, the
`.tag-display` badge (presence, text and background color), and the
`style.display` properties of the cell, video, container and add button. -/
structure Cell where
  src : String
  currentTime : Nat
  paused : Bool
  isEmpty : Bool
  tag : Option String
  hasTagDisplay : Bool
  tagDisplayText : String
  badgeColor : Option String
  display : String
  videoDisplay : String
  containerDisplay : String
  buttonDisplay : String
  deriving DecidableEq, Repr

/-- JS truthiness of a `getAttribute` result: `null` and the empty string
are falsy, every other string is truthy. -/
def jsTruthyOptStr : Option String → Bool
  | none => false
  | some s => s ≠ ""

/-- Assigning `video.src` runs the media load algorithm, which pauses the
element and resets the playback position. -/
def videoSetSrc (c : Cell) (v : String) : Cell :=
  { c with src := v, currentTime := 0, paused := true }

/-- The tag registry `this.tags` of TagManager.js: a JS `Map` from tag
name to color string, keeping insertion order. -/
abbrev TagRegistry : Type := List (String × String)

/-- Lookup `this.tags.get(t)`; `none` models `undefined`. -/
def tagsGet (reg : TagRegistry) (t : String) : Option String :=
  (List.find? (fun p => p.1 = t) reg).map (fun p => p.2)

/-- Test `this.tags.has(t)`. -/
def tagsHas (reg : TagRegistry) (t : String) : Bool :=
  (List.find? (fun p => p.1 = t) reg).isSome

/-- Write `this.tags.set(t, c)`: overwrite in place if the key exists,
otherwise append, as a JS `Map` keeps insertion order. -/
def tagsSet (reg : TagRegistry) (t c : String) : TagRegistry :=
  if tagsHas reg t then
    List.map (fun p => if p.1 = t then (t, c) else p) reg
  else
    reg ++ [(t, c)]

/-- TagManager.generatePastelColor: `hsl(hue, 70%, 80%)` where `hue`
is `Math.floor(Math.random() * 360)`; the random draw is passed in
explicitly as `hue`. -/
def generatePastelColor (hue : Nat) : String :=
  "hsl(" ++ toString hue ++ ", 70%, 80%)"

/-- TagManager.addTag: create-or-get. A fresh tag is stored with a newly
generated pastel color (the random draw `hue` is explicit); in both cases
`this.tags.get(tag)` is returned. Returns the new registry and the color. -/
def addTag (reg : TagRegistry) (t : String) (hue : Nat) : TagRegistry × Option String :=
  if tagsHas reg t then
    (reg, tagsGet reg t)
  else
    let reg1 := tagsSet reg t (generatePastelColor hue)
    (reg1, tagsGet reg1 t)

/-- TagManager.deleteTag: remove the tag from the registry, then for every
cell whose `data-tag` attribute equals the tag, remove the attribute and
remove the `.tag-display` badge element. Returns the new registry and the
new cell list. -/
def deleteTag (reg : TagRegistry) (cells : List Cell) (t : String) :
    TagRegistry × List Cell :=
  (List.filter (fun p => p.1 ≠ t) reg,
   List.map (fun c =>
     if c.tag = some t then
       { c with tag := none, hasTagDisplay := false }
     else c) cells)

/-- TagManager.filterVideos: a cell is shown (`style.display = ""`) when
the filter is the sentinel `"all"` or its `data-tag` attribute equals the
filter value, hidden (`style.display = "none"`) otherwise. -/
def filterVideos (t : String) (cells : List Cell) : List Cell :=
  List.map (fun c =>
    if t = "all" ∨ c.tag = some t then
      { c with display := "" }
    else
      { c with display := "none" }) cells

/-- TagManager.applyTag: set the `data-tag` attribute, then update the
badge text and background color (`this.tags.get(tag)`). Cells built by
createVideoCell always carry a badge; when the badge is absent (possible
only after deleteTag stripped it) the source would throw on
`tagDisplay.textContent`, a path never reached here. -/
def applyTag (reg : TagRegistry) (c : Cell) (t : String) : Cell :=
  if c.hasTagDisplay then
    { c with tag := some t, tagDisplayText := t, badgeColor := tagsGet reg t }
  else
    { c with tag := some t }

/-- The method names defined on TagManager.js (its class body), used to
model JS property lookup on a TagManager instance. -/
def tagManagerMethodNames : List String :=
  ["constructor", "generatePastelColor", "initializeFilterButton",
   "updateDropdown", "addTag", "deleteTag", "filterVideos",
   "setupEventListeners", "addTagToCell", "showTagMenu", "createNewTag",
   "applyTag"]

/-- The click handler TagManager.updateDropdown installs on each dropdown
option: it invokes `this.filterByTag(tagName)`. A JS method call on a
property that is not defined throws a TypeError before any cell is
touched; otherwise the named method would run. -/
def dropdownOptionClick (tagName : String) (cells : List Cell) :
    Except String (List Cell) :=
  if "filterByTag" ∈ tagManagerMethodNames then
    Except.ok (filterVideos tagName cells)
  else
    Except.error "TypeError: this.filterByTag is not a function"

/-- VideoGrid.createVideoCell: a freshly created empty cell. It carries
the `empty` class, a draggable handle, a hidden video and container, a
visible add button, and the `.tag-display` badge in add mode. -/
def freshCell : Cell :=
  { src := "", currentTime := 0, paused := true, isEmpty := true,
    tag := none, hasTagDisplay := true, tagDisplayText := "+",
    badgeColor := none, display := "", videoDisplay := "none",
    containerDisplay := "none", buttonDisplay := "flex" }

/-- A loaded cell carrying tag "a", used as a concrete sample state. -/
def demoTaggedCell : Cell :=
  { src := "blob:v1", currentTime := 0, paused := true, isEmpty := false,
    tag := some "a", hasTagDisplay := true, tagDisplayText := "a",
    badgeColor := some "hsl(5, 70%, 80%)", display := "",
    videoDisplay := "block", containerDisplay := "block",
    buttonDisplay := "none" }

theorem tagsGet_tagsSet_fresh (reg : TagRegistry) (t c : String)
    (h : tagsHas reg t = false) : tagsGet (tagsSet reg t c) t = some c := by
  unfold tagsGet tagsSet tagsHas at *
  rw [h]
  simp only [Bool.false_eq_true, if_false]
  induction reg with
  | nil => simp [List.find?]
  | cons p ps ih =>
    by_cases hp : p.1 = t
    · exfalso
      simp [List.find?, hp] at h
    · simp only [List.cons_append, List.find?]
      rw [show (decide (p.1 = t)) = false by simp [hp]]
      exact ih (by simpa [List.find?, hp] using h)

theorem tagsHas_eq_isSome (reg : TagRegistry) (t : String) :
    tagsHas reg t = (tagsGet reg t).isSome := by
  unfold tagsHas tagsGet
  cases h : List.find? (fun p => p.1 = t) reg <;> simp [h]

theorem tagsHas_addTag (reg : TagRegistry) (t : String) (d : Nat) :
    tagsHas (addTag reg t d).1 t = true := by
  unfold addTag
  by_cases h : tagsHas reg t = true
  · simp [h]
  · have h2 : tagsHas reg t = false := by
      revert h
      cases tagsHas reg t <;> simp
    rw [h2]
    simp only [Bool.false_eq_true, if_false]
    rw [tagsHas_eq_isSome, tagsGet_tagsSet_fresh reg t _ h2]
    rfl

/-- C6: addTag is create-or-get and idempotent. When the tag is present,
addTag returns the stored color and leaves the registry unchanged (the
`then` branch of the characterization); a fresh tag is appended with the
generated color; and a second call after any first call returns the same
registry and the same color that the first call produced. -/
theorem c6_addTag_create_or_get_idempotent (reg : TagRegistry) (t : String)
    (d1 d2 : Nat) :
    (addTag reg t d1 =
      if tagsHas reg t then (reg, tagsGet reg t)
      else (tagsSet reg t (generatePastelColor d1),
            some (generatePastelColor d1))) ∧
    addTag (addTag reg t d1).1 t d2 =
      ((addTag reg t d1).1, (addTag reg t d1).2) := by
  constructor
  · by_cases h : tagsHas reg t = true
    · simp [addTag, h]
    · have h2 : tagsHas reg t = false := by
        revert h
        cases tagsHas reg t <;> simp
      simp [addTag, h2, tagsGet_tagsSet_fresh reg t _ h2]
  · by_cases h : tagsHas reg t = true
    · simp [addTag, h]
    · have h2 : tagsHas reg t = false := by
        revert h
        cases tagsHas reg t <;> simp
      have h3 : tagsHas (tagsSet reg t (generatePastelColor d1)) t = true := by
        rw [tagsHas_eq_isSome, tagsGet_tagsSet_fresh reg t _ h2]
        rfl
      simp [addTag, h2, h3]

/-- C9 (counterexample): two addTag runs from the same registry state on
the same tag name but with different random draws assign different
colors, so the assigned color is not a function of the tag name and the
registry state only. -/
theorem c9_counterexample : (addTag [] "t" 0).2 ≠ (addTag [] "t" 1).2 := by
  decide

/-- C9 (amended): the assigned color is a function of the random draw
alone. For any two registries and fresh tag names, runs with the same
draw assign the same color, namely hsl(draw, 70%, 80%). -/
theorem c9_color_function_of_draw (reg1 reg2 : TagRegistry)
    (t1 t2 : String) (d : Nat)
    (h1 : tagsHas reg1 t1 = false) (h2 : tagsHas reg2 t2 = false) :
    (addTag reg1 t1 d).2 = (addTag reg2 t2 d).2 := by
  unfold addTag
  rw [h1, h2]
  simp only [Bool.false_eq_true, if_false]
  rw [tagsGet_tagsSet_fresh reg1 t1 _ h1, tagsGet_tagsSet_fresh reg2 t2 _ h2]

theorem c9_color_function_of_draw_witness :
    tagsHas [] "a" = false ∧ tagsHas [("b", "c")] "x" = false ∧
    (addTag [] "a" 7).2 = (addTag [("b", "c")] "x" 7).2 :=
  ⟨by decide, by decide,
   c9_color_function_of_draw [] [("b", "c")] "a" "x" 7 (by decide) (by decide)⟩

/-- C5: deleteTag removes the tag from the registry (no entry with that
key survives, every other entry survives unchanged, nothing is added),
and for every cell it strips the `data-tag` attribute and the badge
exactly when the cell referenced the deleted tag, leaving every other
cell untouched. -/
theorem c5_deleteTag_cascades (reg : TagRegistry) (cells : List Cell)
    (t : String) (i : Nat) (h : i < cells.length)
    (h2 : i < (deleteTag reg cells t).2.length) :
    (∀ c : String, (t, c) ∉ (deleteTag reg cells t).1) ∧
    (∀ p : String × String, p ∈ reg → p.1 ≠ t → p ∈ (deleteTag reg cells t).1) ∧
    (∀ p : String × String, p ∈ (deleteTag reg cells t).1 → p ∈ reg) ∧
    (deleteTag reg cells t).2.length = cells.length ∧
    ((cells.get ⟨i, h⟩).tag = some t →
      (deleteTag reg cells t).2.get ⟨i, h2⟩ =
        { cells.get ⟨i, h⟩ with tag := none, hasTagDisplay := false }) ∧
    ((cells.get ⟨i, h⟩).tag ≠ some t →
      (deleteTag reg cells t).2.get ⟨i, h2⟩ = cells.get ⟨i, h⟩) := by
  unfold deleteTag
  refine ⟨?_, ?_, ?_, ?_, ?_, ?_⟩
  · intro c hc
    simp only [List.mem_filter] at hc
    simp at hc
  · intro p hp hne
    simp only [List.mem_filter]
    exact ⟨hp, by simpa using hne⟩
  · intro p hp
    exact (List.mem_filter.mp hp).1
  · simp
  · intro htag
    simp only [List.get_eq_getElem, List.getElem_map]
    rw [List.get_eq_getElem] at htag
    simp [htag]
  · intro htag
    simp only [List.get_eq_getElem, List.getElem_map]
    rw [List.get_eq_getElem] at htag
    simp [htag]

theorem c5_deleteTag_cascades_witness :
    0 < ([demoTaggedCell, freshCell] : List Cell).length ∧
    (deleteTag [("a", "hsl(5, 70%, 80%)")] [demoTaggedCell, freshCell] "a").2.length
      = ([demoTaggedCell, freshCell] : List Cell).length :=
  ⟨by decide,
   (c5_deleteTag_cascades [("a", "hsl(5, 70%, 80%)")]
      [demoTaggedCell, freshCell] "a" 0 (by decide) (by decide)).2.2.2.1⟩

/-- C7: after filterVideos, a cell is visible (its `style.display` is not
"none") exactly when the filter value is the sentinel "all" or the cell's
`data-tag` attribute equals the filter value. -/
theorem c7_filterVideos_visibility (t : String) (cells : List Cell)
    (i : Nat) (h : i < cells.length) (h2 : i < (filterVideos t cells).length) :
    ((filterVideos t cells).get ⟨i, h2⟩).display ≠ "none" ↔
      (t = "all" ∨ (cells.get ⟨i, h⟩).tag = some t) := by
  unfold filterVideos
  simp only [List.get_eq_getElem, List.getElem_map]
  by_cases hc : t = "all" ∨ (cells[i]).tag = some t
  · simp [hc]
  · simp [hc]

theorem c7_filterVideos_visibility_witness :
    0 < ([demoTaggedCell] : List Cell).length ∧
    ((filterVideos "all" [demoTaggedCell]).get ⟨0, by decide⟩).display ≠ "none" :=
  ⟨by decide,
   (c7_filterVideos_visibility "all" [demoTaggedCell] 0 (by decide)
      (by decide)).mpr (Or.inl rfl)⟩

/-- C10: the dropdown option click handler invokes this.filterByTag,
which is not among the methods TagManager defines, so every click throws
a TypeError and no cell list is produced; filtering works only through
direct filterVideos calls. -/
theorem c10_dropdown_click_typeerror (tagName : String) (cells : List Cell) :
    dropdownOptionClick tagName cells =
      Except.error "TypeError: this.filterByTag is not a function" ∧
    "filterByTag" ∉ tagManagerMethodNames := by
  have hnot : "filterByTag" ∉ tagManagerMethodNames := by decide
  exact ⟨by simp [dropdownOptionClick, hnot], hnot⟩

/-- A file handed to the grid by drag-and-drop or the file picker: the
fields of a JS File object the code reads, plus a name used to model
`URL.createObjectURL`. -/
structure JFile where
  name : String
  type : String
  size : Nat
  deriving DecidableEq, Repr

/-- JS `String.prototype.startsWith`. -/
def strStartsWith (s p : String) : Bool :=
  s.take p.length = p

/-- Modelled from the spec: `CONFIG.layouts`, the "static lookup from
(layout mode, aspect ratio) to {cell count, column count}" of spec
section 3; the script defining CONFIG is not in the repository snapshot.
Layout "2x2" has 4 cells in 2 columns and "3x3" has 9 cells in 3
columns, for either aspect ratio. Returns (cell count, column count). -/
def layoutConfig (layout : String) (_aspect : String) : Nat × Nat :=
  if layout = "2x2" then (4, 2) else (9, 3)

/-- The grid controller state: the cell elements in DOM order, the
current layout mode and aspect ratio, the isExtended flag, and the log
of messages routed to the showErrorMessage notification stub. -/
structure Grid where
  layout : String
  aspect : String
  cells : List Cell
  isExtended : Bool
  errors : List String
  deriving DecidableEq, Repr

/-- Indices (in DOM order) of the cells matching
`querySelectorAll(".video-cell.empty")`. -/
def gridEmptyIdxs (g : Grid) : List Nat :=
  List.filter (fun i =>
    match g.cells.get? i with
    | some c => c.isEmpty
    | none => false) (List.range g.cells.length)

/-- JS `Array.prototype.indexOf`: the first index of the element, or -1
when absent. -/
def jsIndexOf (l : List Nat) (x : Nat) : Int :=
  if x ∈ l then (l.indexOf x : Int) else -1

def MAX_FILE_SIZE : Nat := 100 * 1024 * 1024

/-- The hard-coded whitelist checked first in VideoGrid.addVideoToCell. -/
def safeVideoTypes : List String := ["video/mp4", "video/webm", "video/ogg"]

/-- Modelled from the spec: `CONFIG.supportedFormats`, read by the second
format check inside addVideoToCell; the script defining CONFIG is not in
the repository snapshot. The spec only says the grid validates the MIME
type, so the list is taken to be the same whitelist as the hard-coded
safe set; only membership of types already in the safe set matters,
because addVideoToCell tests the safe set first. -/
def supportedFormats : List String := ["video/mp4", "video/webm", "video/ogg"]

/-- Model of `URL.createObjectURL(file)`: a blob URI naming the file. -/
def objectURL (f : JFile) : String := "blob:" ++ f.name

/-- VideoGrid.addVideoToCell. The whitelist check throws OUTSIDE the
try/catch, so its error escapes the function (`Except.error`). The
checks inside the try (CONFIG.supportedFormats, the 100MB size limit)
throw errors that the catch routes to showErrorMessage; these return
`Except.ok` with the untouched cell and the message. On success the cell
receives the object URL and is shown. -/
def addVideoToCell (cell : Cell) (f : JFile) :
    Except String (Cell × Option String) :=
  if f.type ∈ safeVideoTypes then
    if f.type ∈ supportedFormats then
      if f.size > MAX_FILE_SIZE then
        Except.ok (cell, some "文件大小超过限制")
      else
        let c1 := videoSetSrc cell (objectURL f)
        Except.ok ({ c1 with videoDisplay := "block",
                             containerDisplay := "block",
                             buttonDisplay := "none", isEmpty := false },
                   none)
    else
      Except.ok (cell, some ("不支持的视频格式: " ++ f.type))
  else
    Except.error "不支持的视频格式"

/-- The `files.forEach` body of VideoGrid.addMultipleVideos: files whose
type starts with "video/" are placed into the captured empty-cell list at
the running index, which advances only on placement attempts; an error
thrown out of addVideoToCell aborts the whole iteration (JS forEach does
not catch). `emptyIdxs` is the captured list of grid indices of the
empty cells. -/
def addLoop (emptyIdxs : List Nat) :
    List JFile → Int → Grid → Except String Grid
  | [], _, g => Except.ok g
  | f :: fs, idx, g =>
    if strStartsWith f.type "video/" then
      if 0 ≤ idx ∧ idx < (emptyIdxs.length : Int) then
        match (emptyIdxs.get? idx.toNat).bind
            (fun ci => (g.cells.get? ci).map (fun c => (ci, c))) with
        | some (ci, cell) =>
          match addVideoToCell cell f with
          | Except.error e => Except.error e
          | Except.ok (c1, msg) =>
            addLoop emptyIdxs fs (idx + 1)
              { g with cells := g.cells.set ci c1,
                       errors := g.errors ++ msg.toList }
        | none => Except.error "TypeError"
      else addLoop emptyIdxs fs idx g
    else addLoop emptyIdxs fs idx g

/-- VideoGrid.extendGrid: append `Math.ceil(additionalVideos /
cellsPerRow) * cellsPerRow` fresh cells, a whole number of rows. For a
positive divisor, `Math.ceil(a / b)` is `(a + b - 1) / b` in Nat
arithmetic. -/
def extendGrid (g : Grid) (additionalVideos : Nat) : Grid :=
  let cellsPerRow := (layoutConfig g.layout g.aspect).2
  let neededCells :=
    ((additionalVideos + cellsPerRow - 1) / cellsPerRow) * cellsPerRow
  { g with cells := g.cells ++ List.replicate neededCells freshCell }

/-- VideoGrid.addMultipleVideos: capture the empty cells, find the start
cell among them (-1 if not empty), extend the grid by whole rows when
`startIndex + files.length` exceeds the number of empty cells (the
extension is sized to `files.length`), re-query the empty cells, then run
the forEach body. -/
def addMultipleVideos (g : Grid) (files : List JFile) (startIdx : Nat) :
    Except String Grid :=
  let emptyIdxs := gridEmptyIdxs g
  let currentCellIndex : Int := jsIndexOf emptyIdxs startIdx
  let totalNeeded : Int := currentCellIndex + files.length
  if totalNeeded > (emptyIdxs.length : Int) then
    let g1 : Grid := { extendGrid g files.length with isExtended := true }
    addLoop (gridEmptyIdxs g1) files currentCellIndex g1
  else
    addLoop emptyIdxs files currentCellIndex g

/-- The per-cell snapshot VideoGrid.saveVideoStates records: source,
empty flag, tag attribute, playing flag. The playback position is NOT
recorded. -/
structure VideoState where
  src : String
  isEmpty : Bool
  tag : Option String
  isPlaying : Bool
  deriving DecidableEq, Repr

/-- VideoGrid.saveVideoStates. -/
def saveVideoStates (cells : List Cell) : List VideoState :=
  List.map (fun c =>
    { src := c.src, isEmpty := c.isEmpty, tag := c.tag,
      isPlaying := !c.paused }) cells

/-- The body of the forEach in VideoGrid.restoreVideoStates applied to
one new cell: when the saved source is truthy, assign it, show the video
and reapply a truthy tag; otherwise mark the cell empty. The saved
isPlaying flag is never read back, and no playback position is seeked. -/
def restoreCell (tm : TagRegistry) (c : Cell) (s : VideoState) : Cell :=
  if s.src ≠ "" then
    let c1 := videoSetSrc c s.src
    let c2 := { c1 with videoDisplay := "block", containerDisplay := "block",
                        buttonDisplay := "none", isEmpty := false }
    if jsTruthyOptStr s.tag then applyTag tm c2 (s.tag.getD "") else c2
  else
    { c with videoDisplay := "none", containerDisplay := "none",
             buttonDisplay := "flex", isEmpty := true }

/-- VideoGrid.restoreVideoStates: states are applied by index to the new
cells; states beyond the new cell count are dropped, new cells beyond
the state count are left as created. -/
def restoreVideoStates (tm : TagRegistry) :
    List VideoState → List Cell → List Cell
  | _, [] => []
  | [], cs => cs
  | s :: ss, c :: cs => restoreCell tm c s :: restoreVideoStates tm ss cs

/-- The rebuild step shared by VideoGrid.toggleLayout and
toggleAspectRatio: switch to the new layout/aspect, rebuild the grid
from scratch (initGrid), and extend it by whole rows when the filled
cells do not fit the base cell count. -/
def toggleBase (g : Grid) (newLayout newAspect : String) : Grid :=
  let filled := (List.filter (fun c => !c.isEmpty) g.cells).length
  let cfg := layoutConfig newLayout newAspect
  let neededRows := (filled + cfg.2 - 1) / cfg.2
  let totalNeeded := neededRows * cfg.2
  let g1 : Grid := { g with layout := newLayout, aspect := newAspect,
                            cells := List.replicate cfg.1 freshCell }
  if totalNeeded > cfg.1 then
    { extendGrid g1 (totalNeeded - cfg.1) with isExtended := true }
  else g1

/-- The snapshot-and-restore around the rebuild: states are saved from
the old cells and restored onto the rebuilt grid. -/
def toggleCore (g : Grid) (tm : TagRegistry)
    (newLayout newAspect : String) : Grid :=
  let states := saveVideoStates g.cells
  let g2 := toggleBase g newLayout newAspect
  { g2 with cells := restoreVideoStates tm states g2.cells }

/-- VideoGrid.toggleLayout: flip between "2x2" and "3x3". -/
def toggleLayout (g : Grid) (tm : TagRegistry) : Grid :=
  toggleCore g tm (if g.layout = "2x2" then "3x3" else "2x2") g.aspect

/-- VideoGrid.toggleAspectRatio: flip between "16:9" and "9:16". -/
def toggleAspectRatio (g : Grid) (tm : TagRegistry) : Grid :=
  toggleCore g tm g.layout (if g.aspect = "16:9" then "9:16" else "16:9")

/-- The per-cell record VideoGrid.getCellState captures on drop. -/
structure CellState where
  src : String
  currentTime : Nat
  isPlaying : Bool
  isEmpty : Bool
  buttonDisplay : String
  videoDisplay : String
  containerDisplay : String
  deriving DecidableEq, Repr

/-- VideoGrid.getCellState. -/
def getCellState (c : Cell) : CellState :=
  { src := c.src, currentTime := c.currentTime, isPlaying := !c.paused,
    isEmpty := c.isEmpty, buttonDisplay := c.buttonDisplay,
    videoDisplay := c.videoDisplay, containerDisplay := c.containerDisplay }

/-- VideoGrid.applyCellState: assign src (which pauses and rewinds the
media element), seek to the recorded position, copy the display styles,
then overwrite them according to the empty flag, and call play() only
when the recorded state was playing. The data-tag attribute is not
touched here. -/
def applyCellState (c : Cell) (s : CellState) : Cell :=
  let c1 := videoSetSrc c s.src
  let c2 := { c1 with currentTime := s.currentTime,
                      videoDisplay := s.videoDisplay,
                      containerDisplay := s.containerDisplay,
                      buttonDisplay := s.buttonDisplay }
  if s.isEmpty then
    { c2 with isEmpty := true, videoDisplay := "none",
              containerDisplay := "none", buttonDisplay := "flex" }
  else
    let c3 := { c2 with isEmpty := false, videoDisplay := "block",
                        containerDisplay := "block", buttonDisplay := "none" }
    if s.isPlaying then { c3 with paused := false } else c3

/-- The drop handler of VideoGrid.setupVideoSwap, for a drag source and a
distinct target cell: save both data-tag attributes, exchange the two
captured cell states, then write each saved tag onto the other cell only
when it is truthy (the attribute is never removed), and finally swap the
badge texts when both cells still have a `.tag-display` element. Returns
(new drag source, new target). -/
def swapCells (src tgt : Cell) : Cell × Cell :=
  let sourceTag := src.tag
  let targetTag := tgt.tag
  let sourceState := getCellState src
  let targetState := getCellState tgt
  let src1 := applyCellState src targetState
  let tgt1 := applyCellState tgt sourceState
  let tgt2 := if jsTruthyOptStr sourceTag then { tgt1 with tag := sourceTag } else tgt1
  let src2 := if jsTruthyOptStr targetTag then { src1 with tag := targetTag } else src1
  if src2.hasTagDisplay && tgt2.hasTagDisplay then
    ({ src2 with tagDisplayText := tgt2.tagDisplayText },
     { tgt2 with tagDisplayText := src2.tagDisplayText })
  else (src2, tgt2)

/-- VideoGrid.initGrid as run by the constructor: a grid of fresh cells
for the given layout and aspect ratio. -/
def initialGrid (layout aspect : String) : Grid :=
  { layout := layout, aspect := aspect,
    cells := List.replicate (layoutConfig layout aspect).1 freshCell,
    isExtended := false, errors := [] }

def demoGrid : Grid := initialGrid "2x2" "16:9"

def demoFiles : List JFile :=
  [⟨"f1", "video/mp4", 10⟩, ⟨"f2", "video/mp4", 10⟩,
   ⟨"f3", "video/mp4", 10⟩, ⟨"f4", "video/mp4", 10⟩,
   ⟨"f5", "video/mp4", 10⟩]

/-- The cell produced by a successful addVideoToCell on a fresh cell. -/
def loadedCellOf (f : JFile) : Cell :=
  { videoSetSrc freshCell (objectURL f) with
    videoDisplay := "block", containerDisplay := "block",
    buttonDisplay := "none", isEmpty := false }

/-- The grid demoGrid becomes after adding demoFiles from cell 0: the
original 4 rows worth of cells plus 6 appended, the first five loaded. -/
def demoAfter : Grid :=
  { layout := "2x2", aspect := "16:9",
    cells := List.map loadedCellOf demoFiles ++ List.replicate 5 freshCell,
    isExtended := true, errors := [] }

instance {e a : Type} [DecidableEq e] [DecidableEq a] :
    DecidableEq (Except e a) := fun x y =>
  match x, y with
  | Except.ok u, Except.ok v =>
    if h : u = v then isTrue (by rw [h]) else
      isFalse (fun hc => h (Except.ok.inj hc))
  | Except.error u, Except.error v =>
    if h : u = v then isTrue (by rw [h]) else
      isFalse (fun hc => h (Except.error.inj hc))
  | Except.ok _, Except.error _ => isFalse (fun hc => Except.noConfusion hc)
  | Except.error _, Except.ok _ => isFalse (fun hc => Except.noConfusion hc)

/-- A loaded cell that is mid-playback: position 5, playing. -/
def demoPlayingCell : Cell :=
  { freshCell with
    src := "blob:v1"
    isEmpty := false
    currentTime := 5
    paused := false
    videoDisplay := "block"
    containerDisplay := "block"
    buttonDisplay := "none" }

/-- A fresh 2x2 grid whose first cell holds demoPlayingCell. -/
def demoG2 : Grid :=
  { demoGrid with cells := demoPlayingCell :: List.replicate 3 freshCell }

/-- A loaded cell without a tag. -/
def demoUntaggedLoaded : Cell :=
  { freshCell with
    src := "blob:v2"
    isEmpty := false
    videoDisplay := "block"
    containerDisplay := "block"
    buttonDisplay := "none" }

/-- C1 (code bug): in a batch holding an unsupported-MIME video file
followed by a valid one, the whitelist error thrown outside the
try/catch of addVideoToCell escapes addMultipleVideos, so the batch is
aborted, the notification hook never receives the message, and the valid
file is never loaded — yet addVideoToCell would load the valid file on
its own, showing the abort comes from the bad file alone. -/
theorem c1_unsupported_type_aborts_batch :
    addMultipleVideos demoGrid
        [⟨"bad", "video/avi", 10⟩, ⟨"good", "video/mp4", 10⟩] 0 =
      Except.error "不支持的视频格式" ∧
    addVideoToCell freshCell ⟨"good", "video/mp4", 10⟩ =
      Except.ok (loadedCellOf ⟨"good", "video/mp4", 10⟩, none) := by
  constructor
  · decide
  · decide

/-- C2 (counterexample): a cell at position 5 of its video and playing
ends, after toggleLayout, at position 0 and paused (its source survives),
so the playback position and playing flag are not preserved. -/
theorem c2_counterexample :
    (demoG2.cells.getD 0 freshCell).currentTime = 5 ∧
    (demoG2.cells.getD 0 freshCell).paused = false ∧
    ((toggleLayout demoG2 []).cells.getD 0 freshCell).src =
      (demoG2.cells.getD 0 freshCell).src ∧
    ((toggleLayout demoG2 []).cells.getD 0 freshCell).currentTime = 0 ∧
    ((toggleLayout demoG2 []).cells.getD 0 freshCell).paused = true := by
  refine ⟨by decide, by decide, by decide, by decide, by decide⟩

/-- C3 (counterexample): dropping a tagged loaded cell onto an untagged
loaded cell leaves the drag source still tagged "a" — the claim predicts
the previously tagged cell ends untagged. -/
theorem c3_counterexample :
    demoTaggedCell.tag = some "a" ∧ demoUntaggedLoaded.tag = none ∧
    (swapCells demoTaggedCell demoUntaggedLoaded).1.tag = some "a" ∧
    (swapCells demoTaggedCell demoUntaggedLoaded).2.tag = some "a" := by
  refine ⟨by decide, by decide, by decide, by decide⟩

/-- C3 (amended): on drop, the two cells exchange source, playback
position, playing flag and empty flag; a cell's data-tag attribute is
overwritten by the other's tag only when that tag is truthy and is never
removed, so with only one tag present both cells end carrying it; badge
texts are swapped exactly when both badges exist. -/
theorem c3_amended_swap_characterization (s t : Cell) :
    (swapCells s t).1.src = t.src ∧
    (swapCells s t).1.currentTime = t.currentTime ∧
    (swapCells s t).1.isEmpty = t.isEmpty ∧
    (swapCells s t).1.paused = (if t.isEmpty then true else t.paused) ∧
    (swapCells s t).1.tag = (if jsTruthyOptStr t.tag then t.tag else s.tag) ∧
    (swapCells s t).2.src = s.src ∧
    (swapCells s t).2.currentTime = s.currentTime ∧
    (swapCells s t).2.isEmpty = s.isEmpty ∧
    (swapCells s t).2.paused = (if s.isEmpty then true else s.paused) ∧
    (swapCells s t).2.tag = (if jsTruthyOptStr s.tag then s.tag else t.tag) ∧
    (swapCells s t).1.tagDisplayText =
      (if s.hasTagDisplay && t.hasTagDisplay then t.tagDisplayText
       else s.tagDisplayText) ∧
    (swapCells s t).2.tagDisplayText =
      (if s.hasTagDisplay && t.hasTagDisplay then s.tagDisplayText
       else t.tagDisplayText) := by
  unfold swapCells applyCellState getCellState videoSetSrc
  cases hse : s.isEmpty <;> cases hte : t.isEmpty <;>
    cases hsp : s.paused <;> cases htp : t.paused <;>
    cases hjs : jsTruthyOptStr s.tag <;> cases hjt : jsTruthyOptStr t.tag <;>
    cases hsd : s.hasTagDisplay <;> cases htd : t.hasTagDisplay <;>
    simp_all

/-- C4 (counterexample): adding five valid files to the fresh 2x2 grid
(4 empty cells, 2 columns) grows the grid to 10 cells, although the
smallest multiple of the column count able to hold the 5 loaded videos
is 6: the extension is sized to the incoming batch and ignores the empty
cells already present. -/
theorem c4_counterexample :
    addMultipleVideos demoGrid demoFiles 0 = Except.ok demoAfter ∧
    demoAfter.cells.length = 10 ∧
    (List.filter (fun c => !c.isEmpty) demoAfter.cells).length = 5 ∧
    (layoutConfig demoAfter.layout demoAfter.aspect).2 = 2 ∧
    5 ≤ 6 ∧ 6 % 2 = 0 ∧ (6 : Nat) ≠ 10 := by
  refine ⟨by decide, by decide, by decide, by decide, by decide, by decide, by decide⟩

theorem restoreVideoStates_length (tm : TagRegistry) (ss : List VideoState)
    (cs : List Cell) : (restoreVideoStates tm ss cs).length = cs.length := by
  induction cs generalizing ss with
  | nil => cases ss <;> rfl
  | cons c cst ih =>
    cases ss with
    | nil => rfl
    | cons s sst => simp [restoreVideoStates, ih]

theorem restoreVideoStates_get (tm : TagRegistry) (ss : List VideoState)
    (cs : List Cell) (i : Nat) (h1 : i < (restoreVideoStates tm ss cs).length)
    (h2 : i < cs.length) (h3 : i < ss.length) :
    (restoreVideoStates tm ss cs).get ⟨i, h1⟩ =
      restoreCell tm (cs.get ⟨i, h2⟩) (ss.get ⟨i, h3⟩) := by
  induction cs generalizing ss i with
  | nil => exact absurd h2 (by simp)
  | cons c cst ih =>
    cases ss with
    | nil => exact absurd h3 (by simp)
    | cons s sst =>
      cases i with
      | zero => rfl
      | succ n =>
        have h1n : n < (restoreVideoStates tm sst cst).length := by
          simpa [restoreVideoStates] using h1
        simpa [restoreVideoStates, List.get_eq_getElem] using
          ih sst n h1n (by simpa using h2) (by simpa using h3)

theorem mem_toggleBase_fresh (g : Grid) (nl na : String) :
    ∀ c ∈ (toggleBase g nl na).cells, c = freshCell := by
  intro c hc
  unfold toggleBase at hc
  dsimp only at hc
  split at hc
  · simp only [extendGrid] at hc
    rcases List.mem_append.mp hc with hm | hm
    · exact List.eq_of_mem_replicate hm
    · exact List.eq_of_mem_replicate hm
  · exact List.eq_of_mem_replicate hc

theorem toggleCore_cells_eq (g : Grid) (tm : TagRegistry) (nl na : String) :
    (toggleCore g tm nl na).cells =
      restoreVideoStates tm (saveVideoStates g.cells) (toggleBase g nl na).cells := rfl

theorem saveVideoStates_get (cells : List Cell) (i : Nat)
    (h1 : i < (saveVideoStates cells).length) (h2 : i < cells.length) :
    (saveVideoStates cells).get ⟨i, h1⟩ =
      { src := (cells.get ⟨i, h2⟩).src, isEmpty := (cells.get ⟨i, h2⟩).isEmpty,
        tag := (cells.get ⟨i, h2⟩).tag,
        isPlaying := !(cells.get ⟨i, h2⟩).paused } := by
  simp [saveVideoStates, List.get_eq_getElem]

theorem restoreCell_fresh_loaded (tm : TagRegistry) (s : VideoState)
    (hsrc : s.src ≠ "") :
    (restoreCell tm freshCell s).src = s.src ∧
    (restoreCell tm freshCell s).isEmpty = false ∧
    (restoreCell tm freshCell s).tag =
      (if jsTruthyOptStr s.tag then s.tag else none) ∧
    (restoreCell tm freshCell s).currentTime = 0 ∧
    (restoreCell tm freshCell s).paused = true := by
  unfold restoreCell applyTag videoSetSrc
  cases htag : s.tag with
  | none => simp [hsrc, jsTruthyOptStr, freshCell]
  | some u =>
    by_cases hu : u = ""
    · simp [hsrc, jsTruthyOptStr, hu, freshCell]
    · simp [hsrc, jsTruthyOptStr, hu, freshCell]

theorem toggleCore_preserves (g : Grid) (tm : TagRegistry) (nl na : String)
    (i : Nat) (h1 : i < g.cells.length)
    (h2 : i < (toggleCore g tm nl na).cells.length)
    (hsrc : (g.cells.get ⟨i, h1⟩).src ≠ "") :
    ((toggleCore g tm nl na).cells.get ⟨i, h2⟩).src = (g.cells.get ⟨i, h1⟩).src ∧
    ((toggleCore g tm nl na).cells.get ⟨i, h2⟩).isEmpty = false ∧
    ((toggleCore g tm nl na).cells.get ⟨i, h2⟩).tag =
      (if jsTruthyOptStr (g.cells.get ⟨i, h1⟩).tag then (g.cells.get ⟨i, h1⟩).tag
       else none) ∧
    ((toggleCore g tm nl na).cells.get ⟨i, h2⟩).currentTime = 0 ∧
    ((toggleCore g tm nl na).cells.get ⟨i, h2⟩).paused = true := by
  have h3 : i < (saveVideoStates g.cells).length := by
    simpa [saveVideoStates] using h1
  have h2b : i < (toggleCore g tm nl na).cells.length := h2
  rw [toggleCore_cells_eq] at h2b
  have h4 : i < (toggleBase g nl na).cells.length := by
    rwa [restoreVideoStates_length] at h2b
  have hget : (toggleCore g tm nl na).cells.get ⟨i, h2⟩ =
      restoreCell tm ((toggleBase g nl na).cells.get ⟨i, h4⟩)
        ((saveVideoStates g.cells).get ⟨i, h3⟩) := by
    have := restoreVideoStates_get tm (saveVideoStates g.cells)
      (toggleBase g nl na).cells i h2b h4 h3
    exact this
  have hfresh : (toggleBase g nl na).cells.get ⟨i, h4⟩ = freshCell :=
    mem_toggleBase_fresh g nl na _ (List.get_mem _ _ _)
  rw [hget, hfresh, saveVideoStates_get g.cells i h3 h1]
  exact restoreCell_fresh_loaded tm _ hsrc

/-- C2 (amended): toggleLayout and toggleAspectRatio preserve, for each
cell index present in both the old and the rebuilt grid, the loaded
cell's source reference (and hence non-empty flag) and its truthy tag
via snapshot-and-restore — but not the playback position or the playing
flag: the snapshot never records the position and the restore never
seeks or resumes, so every restored cell sits at position 0, paused. -/
theorem c2_amended_toggle_preserves (g : Grid) (tm : TagRegistry) (i : Nat)
    (h1 : i < g.cells.length)
    (hL : i < (toggleLayout g tm).cells.length)
    (hA : i < (toggleAspectRatio g tm).cells.length)
    (hsrc : (g.cells.get ⟨i, h1⟩).src ≠ "") :
    (((toggleLayout g tm).cells.get ⟨i, hL⟩).src = (g.cells.get ⟨i, h1⟩).src ∧
     ((toggleLayout g tm).cells.get ⟨i, hL⟩).isEmpty = false ∧
     ((toggleLayout g tm).cells.get ⟨i, hL⟩).tag =
       (if jsTruthyOptStr (g.cells.get ⟨i, h1⟩).tag then (g.cells.get ⟨i, h1⟩).tag
        else none) ∧
     ((toggleLayout g tm).cells.get ⟨i, hL⟩).currentTime = 0 ∧
     ((toggleLayout g tm).cells.get ⟨i, hL⟩).paused = true) ∧
    (((toggleAspectRatio g tm).cells.get ⟨i, hA⟩).src = (g.cells.get ⟨i, h1⟩).src ∧
     ((toggleAspectRatio g tm).cells.get ⟨i, hA⟩).isEmpty = false ∧
     ((toggleAspectRatio g tm).cells.get ⟨i, hA⟩).tag =
       (if jsTruthyOptStr (g.cells.get ⟨i, h1⟩).tag then (g.cells.get ⟨i, h1⟩).tag
        else none) ∧
     ((toggleAspectRatio g tm).cells.get ⟨i, hA⟩).currentTime = 0 ∧
     ((toggleAspectRatio g tm).cells.get ⟨i, hA⟩).paused = true) :=
  ⟨toggleCore_preserves g tm _ _ i h1 hL hsrc,
   toggleCore_preserves g tm _ _ i h1 hA hsrc⟩

theorem c2_amended_toggle_preserves_witness :
    0 < demoG2.cells.length ∧
    ((toggleLayout demoG2 []).cells.get ⟨0, by decide⟩).src =
      (demoG2.cells.get ⟨0, by decide⟩).src ∧
    ((toggleAspectRatio demoG2 []).cells.get ⟨0, by decide⟩).paused = true :=
  ⟨by decide,
   (c2_amended_toggle_preserves demoG2 [] 0 (by decide) (by decide) (by decide)
      (by decide)).1.1,
   (c2_amended_toggle_preserves demoG2 [] 0 (by decide) (by decide) (by decide)
      (by decide)).2.2.2.2.2⟩

theorem addLoop_length (files : List JFile) (emptyIdxs : List Nat) (idx : Int)
    (g g2 : Grid) (h : addLoop emptyIdxs files idx g = Except.ok g2) :
    g2.cells.length = g.cells.length := by
  induction files generalizing idx g with
  | nil =>
    simp only [addLoop] at h
    cases h
    rfl
  | cons f fs ih =>
    simp only [addLoop] at h
    split at h
    · split at h
      · split at h
        · split at h
          · exact absurd h (by simp)
          · have := ih _ _ h
            simpa [List.length_set] using this
        · exact absurd h (by simp)
      · exact ih _ _ h
    · exact ih _ _ h

theorem extendGrid_length (g : Grid) (n : Nat) :
    (extendGrid g n).cells.length = g.cells.length +
      ((n + (layoutConfig g.layout g.aspect).2 - 1) /
        (layoutConfig g.layout g.aspect).2) * (layoutConfig g.layout g.aspect).2 := by
  simp [extendGrid]

/-- C4 (amended): when addMultipleVideos receives more files than its
start index leaves empty cells, the grid grows by whole rows sized to
the incoming batch: exactly ceil(files / columns) × columns cells are
appended, so a cell count that was a multiple of the column count stays
one — but the extension ignores the empty cells already available, so
the result generally exceeds the smallest multiple of the column count
able to hold all loaded videos. -/
theorem c4_amended_growth (g : Grid) (files : List JFile) (startIdx : Nat)
    (g2 : Grid)
    (htrig : jsIndexOf (gridEmptyIdxs g) startIdx + (files.length : Int) >
      ((gridEmptyIdxs g).length : Int))
    (hok : addMultipleVideos g files startIdx = Except.ok g2) :
    g2.cells.length = g.cells.length +
      ((files.length + (layoutConfig g.layout g.aspect).2 - 1) /
        (layoutConfig g.layout g.aspect).2) * (layoutConfig g.layout g.aspect).2 ∧
    ((layoutConfig g.layout g.aspect).2 ∣ g.cells.length →
      (layoutConfig g.layout g.aspect).2 ∣ g2.cells.length) := by
  unfold addMultipleVideos at hok
  rw [if_pos htrig] at hok
  have hlen := addLoop_length files _ _ _ _ hok
  have hext : ({ extendGrid g files.length with isExtended := true } : Grid).cells.length
      = g.cells.length +
        ((files.length + (layoutConfig g.layout g.aspect).2 - 1) /
          (layoutConfig g.layout g.aspect).2) * (layoutConfig g.layout g.aspect).2 := by
    simpa using extendGrid_length g files.length
  constructor
  · rw [hlen, hext]
  · intro hdvd
    rw [hlen, hext]
    exact Nat.dvd_add hdvd (dvd_mul_left _ _)

theorem c4_amended_growth_witness :
    jsIndexOf (gridEmptyIdxs demoGrid) 0 + ((demoFiles.length : Nat) : Int) >
      ((gridEmptyIdxs demoGrid).length : Int) ∧
    demoAfter.cells.length = demoGrid.cells.length +
      ((demoFiles.length + (layoutConfig demoGrid.layout demoGrid.aspect).2 - 1) /
        (layoutConfig demoGrid.layout demoGrid.aspect).2) *
        (layoutConfig demoGrid.layout demoGrid.aspect).2 :=
  ⟨by decide,
   (c4_amended_growth demoGrid demoFiles 0 demoAfter (by decide) (by decide)).1⟩

/-- The navbar auto-hide state of Navbar.setupAutoHide: the `hidden`
class, the current time in ms, the pending fire time of the stored
mousemove hide timer (`timeout`), the pending fire time of the
constructor's load timer (whose handle is never stored, so clearTimeout
can never cancel it), and the y coordinate of the last mousemove. -/
structure NavState where
  hidden : Bool
  now : Nat
  moveTimer : Option Nat
  initTimer : Option Nat
  lastY : Option Nat
  deriving DecidableEq, Repr

/-- Whether the last reported pointer position lies inside the 100 px
top proximity zone. -/
def navInZone (s : NavState) : Bool :=
  match s.lastY with
  | some y => decide (y < 100)
  | none => false

/-- Whether the pending mousemove hide timer is due at time t. -/
def navTimerDue (s : NavState) (t : Nat) : Bool :=
  match s.moveTimer with
  | some ft => decide (ft ≤ t)
  | none => false

/-- Advance the clock to time t, firing every pending timer due at or
before t; both callbacks add the `hidden` class. -/
def fireTimers (s : NavState) (t : Nat) : NavState :=
  let s1 :=
    match s.initTimer with
    | some ft => if ft ≤ t then { s with hidden := true, initTimer := none } else s
    | none => s
  let s2 :=
    match s1.moveTimer with
    | some ft => if ft ≤ t then { s1 with hidden := true, moveTimer := none } else s1
    | none => s1
  { s2 with now := t }

/-- An observable event of the auto-hide machine: a mousemove at time t
with clientY = y, or the mere passage of time up to t. -/
inductive NavEvent where
  | move (t y : Nat)
  | tick (t : Nat)
  deriving DecidableEq, Repr

/-- One step of the machine. A mousemove first lets due timers fire,
then runs the handler: inside the 100 px zone it removes `hidden` and
clears the stored timer; outside it clears the stored timer and
schedules a hide 2000 ms from the event. -/
def navStep (s : NavState) : NavEvent → NavState
  | NavEvent.tick t => fireTimers s t
  | NavEvent.move t y =>
    let s1 := fireTimers s t
    let s2 := { s1 with lastY := some y }
    if y < 100 then { s2 with hidden := false, moveTimer := none }
    else { s2 with moveTimer := some (t + 2000) }

/-- Page load at time 0: navbar visible, load timer set for 2000 ms. -/
def navInit : NavState :=
  { hidden := false, now := 0, moveTimer := none, initTimer := some 2000,
    lastY := none }

def navRun (s : NavState) (evs : List NavEvent) : NavState :=
  List.foldl navStep s evs

/-- The steady-state invariant after the load timer has fired: while the
pointer is inside the zone the navbar is visible with no pending hide
timer, and a pending hide timer exists only while the pointer is outside
the zone. -/
def navInv (s : NavState) : Bool :=
  s.initTimer.isNone &&
  (match s.lastY with
   | some y => if y < 100 then (!s.hidden && s.moveTimer.isNone) else true
   | none => true) &&
  (match s.moveTimer with
   | some _ =>
     match s.lastY with
     | some y => decide (100 ≤ y)
     | none => false
   | none => true)

/-- C8 (counterexample): the pointer moves to y = 50, inside the 100 px
zone, at 1000 ms and stays; at 2000 ms the load timer — whose handle was
never stored, so the in-zone mousemove could not clear it — fires and
the navbar enters the hidden state while the pointer is inside the
proximity threshold zone. -/
theorem c8_counterexample :
    (navRun navInit [NavEvent.move 1000 50, NavEvent.tick 2000]).hidden = true ∧
    navInZone (navRun navInit [NavEvent.move 1000 50, NavEvent.tick 2000]) = true := by
  refine ⟨by decide, by decide⟩

theorem fireTimers_initNone (s : NavState) (t : Nat) (h1 : s.initTimer = none) :
    fireTimers s t =
      { s with hidden := s.hidden || navTimerDue s t,
               moveTimer := if navTimerDue s t then none else s.moveTimer,
               now := t } := by
  unfold fireTimers navTimerDue
  rw [h1]
  cases hM : s.moveTimer with
  | none => simp [hM, h1]
  | some ft =>
    by_cases hft : ft ≤ t
    · simp [hM, hft, h1]
    · simp [hM, hft, h1]

theorem navStep_tick_eq (s : NavState) (t : Nat) (h1 : s.initTimer = none) :
    navStep s (NavEvent.tick t) =
      { s with hidden := s.hidden || navTimerDue s t,
               moveTimer := if navTimerDue s t then none else s.moveTimer,
               now := t } := by
  simp only [navStep]
  exact fireTimers_initNone s t h1

theorem navStep_move_eq (s : NavState) (t y : Nat) (h1 : s.initTimer = none) :
    navStep s (NavEvent.move t y) =
      (if y < 100 then
        { s with hidden := false, moveTimer := none, now := t, lastY := some y }
      else
        { s with hidden := s.hidden || navTimerDue s t,
                 moveTimer := some (t + 2000), now := t, lastY := some y }) := by
  simp only [navStep]
  rw [fireTimers_initNone s t h1]

/-- C8 (amended): once the load timer has fired (captured by the navInv
invariant, which every step preserves), the navbar is never hidden while
the last pointer position is inside the 100 px zone; an out-of-zone
mousemove schedules the hide for exactly 2000 ms later and an in-zone
mousemove cancels it, so apart from the uncancellable load timer —
which hides the navbar 2000 ms after page load even with the pointer in
the zone — the navbar becomes hidden only 2000 ms after the last
out-of-zone mousemove. -/
theorem c8_amended_after_load (s : NavState) (e : NavEvent) (t y : Nat)
    (h : navInv s = true) :
    navInv (navStep s e) = true ∧
    (s.hidden && navInZone s) = false ∧
    (navStep s (NavEvent.move t y)).moveTimer =
      (if y < 100 then none else some (t + 2000)) ∧
    (navStep s (NavEvent.move t y)).hidden =
      (if y < 100 then false else (s.hidden || navTimerDue s t)) ∧
    (navStep s (NavEvent.tick t)).hidden = (s.hidden || navTimerDue s t) := by
  unfold navInv at h
  rw [Bool.and_eq_true, Bool.and_eq_true] at h
  obtain ⟨⟨hinit, hzone⟩, hmt⟩ := h
  have hinitN : s.initTimer = none := Option.isNone_iff_eq_none.mp hinit
  refine ⟨?_, ?_, ?_, ?_, ?_⟩
  · cases e with
    | tick t2 =>
      rw [navStep_tick_eq s t2 hinitN]
      unfold navInv
      cases hY : s.lastY with
      | none =>
        cases hM : s.moveTimer with
        | none => simp [hinitN, hY, hM, navTimerDue]
        | some ft =>
          rw [hM, hY] at hmt
          exact absurd hmt (by simp)
      | some y2 =>
        by_cases hy2 : y2 < 100
        · rw [hY] at hzone
          simp only [hy2, if_true, Bool.and_eq_true, Bool.not_eq_true'] at hzone
          have hM : s.moveTimer = none :=
            Option.isNone_iff_eq_none.mp hzone.2
          simp [hinitN, hY, hy2, hM, hzone.1, navTimerDue]
        · cases hM : s.moveTimer with
          | none => simp [hinitN, hY, hy2, hM, navTimerDue]
          | some ft =>
            by_cases hd : ft ≤ t2 <;>
              (simp [hinitN, hY, hy2, hM, navTimerDue, hd]; try omega)
    | move t2 y2 =>
      rw [navStep_move_eq s t2 y2 hinitN]
      by_cases hy2 : y2 < 100
      · simp [hy2, navInv, hinitN]
      · simp [hy2, navInv, hinitN]
        omega
  · unfold navInZone
    cases hY : s.lastY with
    | none => simp
    | some y2 =>
      by_cases hy2 : y2 < 100
      · rw [hY] at hzone
        simp only [hy2, if_true, Bool.and_eq_true, Bool.not_eq_true'] at hzone
        simp [hzone.1]
      · simp [hy2]
  · rw [navStep_move_eq s t y hinitN]
    by_cases hy : y < 100 <;> simp [hy]
  · rw [navStep_move_eq s t y hinitN]
    by_cases hy : y < 100 <;> simp [hy]
  · rw [navStep_tick_eq s t hinitN]

theorem c8_amended_after_load_witness :
    navInv { hidden := false, now := 2500, moveTimer := none,
             initTimer := none, lastY := some 50 } = true ∧
    navInv (navStep { hidden := false, now := 2500, moveTimer := none,
                      initTimer := none, lastY := some 50 }
              (NavEvent.move 3000 200)) = true ∧
    (navStep { hidden := false, now := 2500, moveTimer := none,
               initTimer := none, lastY := some 50 }
       (NavEvent.move 3000 200)).moveTimer = some 5000 :=
  ⟨by decide,
   (c8_amended_after_load _ (NavEvent.move 3000 200) 3000 200 (by decide)).1,
   by
     have := (c8_amended_after_load
       { hidden := false, now := 2500, moveTimer := none,
         initTimer := none, lastY := some 50 }
       (NavEvent.move 3000 200) 3000 200 (by decide)).2.2.1
     simpa using this⟩
